import Mathlib

/-!
Shallow embedding of the dex Docker metrics collector (src/collector.go).

The collector lists containers, emits one `dex_container_running` point per
container, and for running containers fetches a stats snapshot and derives
CPU, memory, network, block I/O and pid metrics from it.  Go `uint64`
arithmetic is modelled on `Nat` with explicit reduction modulo `2 ^ 64`;
`float64` values are modelled by `F64`, keeping finite values exact as
rationals and recording the non-finite results of a division by zero.
-/

namespace DexCollector

/-- Modulus of the Go `uint64` arithmetic used throughout the collector. -/
def U64 : Nat := 2 ^ 64

/-- Go `uint64` subtraction `a - b`: wraps modulo `2 ^ 64`. -/
def usub64 (a b : Nat) : Nat := (U64 + a - b % U64) % U64

/-- Go `uint64` addition `a + b`: wraps modulo `2 ^ 64`. -/
def uadd64 (a b : Nat) : Nat := (a + b) % U64

/-- The fragment of IEEE-754 binary64 behaviour the collector exercises:
finite values kept exact as rationals, plus `nan` and the two infinities
produced by dividing by zero.  Go float division does not trap, so a zero
denominator yields one of the non-finite values instead of a fault. -/
inductive F64 where
  | fin (q : ℚ)
  | nan
  | posInf
  | negInf
  deriving DecidableEq, Repr

/-- Float division, with the IEEE-754 zero-denominator behaviour: `0/0` is
`nan`, `a/0` for `a > 0` is `+inf`, for `a < 0` it is `-inf`. -/
def fdiv : F64 → F64 → F64
  | F64.nan, _ => F64.nan
  | _, F64.nan => F64.nan
  | F64.fin a, F64.fin b =>
      if b = 0 then (if a = 0 then F64.nan else if 0 < a then F64.posInf else F64.negInf)
      else F64.fin (a / b)
  | F64.fin _, F64.posInf => F64.fin 0
  | F64.fin _, F64.negInf => F64.fin 0
  | F64.posInf, F64.fin b => if 0 ≤ b then F64.posInf else F64.negInf
  | F64.negInf, F64.fin b => if 0 ≤ b then F64.negInf else F64.posInf
  | F64.posInf, _ => F64.posInf
  | F64.negInf, _ => F64.negInf

/-- Float multiplication on the same fragment; `nan` is absorbing and
`inf * 0` is `nan`, as in IEEE-754. -/
def fmul : F64 → F64 → F64
  | F64.nan, _ => F64.nan
  | _, F64.nan => F64.nan
  | F64.fin a, F64.fin b => F64.fin (a * b)
  | F64.posInf, F64.fin b => if b = 0 then F64.nan else if 0 < b then F64.posInf else F64.negInf
  | F64.fin a, F64.posInf => if a = 0 then F64.nan else if 0 < a then F64.posInf else F64.negInf
  | F64.negInf, F64.fin b => if b = 0 then F64.nan else if 0 < b then F64.negInf else F64.posInf
  | F64.fin a, F64.negInf => if a = 0 then F64.nan else if 0 < a then F64.negInf else F64.posInf
  | F64.posInf, F64.posInf => F64.posInf
  | F64.posInf, F64.negInf => F64.negInf
  | F64.negInf, F64.posInf => F64.negInf
  | F64.negInf, F64.negInf => F64.posInf

/-- One entry of `BlkioStats.IoServiceBytesRecursive`. -/
structure BlkioStatEntry where
  op : String
  value : Nat
  deriving DecidableEq, Repr

/-- One entry of the `Networks` map: received and sent byte counters. -/
structure NetworkStats where
  rxBytes : Nat
  txBytes : Nat
  deriving DecidableEq, Repr

/-- `CPUStats.CPUUsage`: the cumulative usage counter in nanoseconds. -/
structure CPUUsage where
  totalUsage : Nat
  deriving DecidableEq, Repr

/-- `CPUStats`: container usage plus the host system usage counter. -/
structure CPUStats where
  cpuUsage : CPUUsage
  systemUsage : Nat
  deriving DecidableEq, Repr

/-- `MemoryStats`: usage, limit, and the per-key stats map (modelled as an
association list; a Go map lookup of an absent key yields 0). -/
structure MemoryStats where
  usage : Nat
  limit : Nat
  stats : List (String × Nat)
  deriving DecidableEq, Repr

/-- `PidsStats`: current number of pids in the cgroup. -/
structure PidsStats where
  current : Nat
  deriving DecidableEq, Repr

/-- The fields of `types.StatsJSON` the collector reads. -/
structure StatsJSON where
  cpuStats : CPUStats
  preCPUStats : CPUStats
  memoryStats : MemoryStats
  networks : List (String × NetworkStats)
  blkioEntries : List BlkioStatEntry
  pidsStats : PidsStats
  deriving DecidableEq, Repr

/-- Kind of an emitted Prometheus metric. -/
inductive MetricKind where
  | gauge
  | counter
  deriving DecidableEq, Repr

/-- One emitted metric point: name, kind, value and the single
`container_name` label. -/
structure MetricPoint where
  name : String
  kind : MetricKind
  value : F64
  containerName : String
  deriving DecidableEq, Repr

/-- Go map indexing `m[k]` on a `map[string]uint64`: the value when the key
is present, 0 otherwise. -/
def statLookup (stats : List (String × Nat)) (k : String) : Nat :=
  (stats.lookup k).getD 0

/-- ASCII lower-casing of one character. -/
def lowerChar (c : Char) : Char :=
  if 65 ≤ c.toNat ∧ c.toNat ≤ 90 then Char.ofNat (c.toNat + 32) else c

/-- Model of Go `strings.EqualFold` restricted to the ASCII operation names
the collector compares: equality after ASCII lower-casing. -/
def eqFold (a b : String) : Bool := a.data.map lowerChar == b.data.map lowerChar

/-- CPU delta `totalUsage - preTotalUsage` in `uint64` arithmetic. -/
def cpuDeltaVal (s : StatsJSON) : Nat :=
  usub64 s.cpuStats.cpuUsage.totalUsage s.preCPUStats.cpuUsage.totalUsage

/-- System delta `systemUsage - preSystemUsage` in `uint64` arithmetic
(named `sysemDelta` in the source). -/
def systemDeltaVal (s : StatsJSON) : Nat :=
  usub64 s.cpuStats.systemUsage s.preCPUStats.systemUsage

/-- `CPUMetrics`: utilization percent (float division of the deltas, times
100) and cumulative seconds (`totalUsage / 1e9`). -/
def CPUMetrics (s : StatsJSON) (cName : String) : List MetricPoint :=
  let totalUsage := s.cpuStats.cpuUsage.totalUsage
  let cpuUtilization := fmul (fdiv (F64.fin (cpuDeltaVal s)) (F64.fin (systemDeltaVal s))) (F64.fin 100)
  [ MetricPoint.mk "dex_cpu_utilization_percent" MetricKind.gauge cpuUtilization cName,
    MetricPoint.mk "dex_cpu_utilization_seconds_total" MetricKind.counter
      (F64.fin ((totalUsage : ℚ) / (10 ^ 9 : ℚ))) cName ]

/-- `networkMetrics`: rx/tx byte counters of the hardcoded `eth0` interface
(zero-valued entry when the interface is absent, as for a Go map). -/
def networkMetrics (s : StatsJSON) (cName : String) : List MetricPoint :=
  let eth0 := (s.networks.lookup "eth0").getD (NetworkStats.mk 0 0)
  [ MetricPoint.mk "dex_network_rx_bytes" MetricKind.counter (F64.fin (eth0.rxBytes : ℚ)) cName,
    MetricPoint.mk "dex_network_tx_bytes" MetricKind.counter (F64.fin (eth0.txBytes : ℚ)) cName ]

/-- Key of the kernel disk-cache stat: starts empty, set to `"cache"` when
that key is present, then overwritten to `"file"` when that key is present
(the two `if` statements of the source run in this order). -/
def kernelDiskCacheKeyName (stats : List (String × Nat)) : String :=
  let k := ""
  let k := if (stats.lookup "cache").isSome then "cache" else k
  if (stats.lookup "file").isSome then "file" else k

/-- Memory usage reported by the collector: `Usage` minus the selected
disk-cache stat, in `uint64` arithmetic. -/
def memoryUsageVal (m : MemoryStats) : Nat :=
  usub64 m.usage (statLookup m.stats (kernelDiskCacheKeyName m.stats))

/-- `memoryMetrics`: the three memory points, plus a flag recording whether
the missing-key warning was logged (neither `"cache"` nor `"file"` found). -/
def memoryMetrics (s : StatsJSON) (cName : String) : List MetricPoint × Bool :=
  let warned := (s.memoryStats.stats.lookup "cache").isNone
    && (s.memoryStats.stats.lookup "file").isNone
  let memoryUsage := memoryUsageVal s.memoryStats
  let memoryTotal := s.memoryStats.limit
  let memoryUtilization := fmul (fdiv (F64.fin (memoryUsage : ℚ)) (F64.fin (memoryTotal : ℚ))) (F64.fin 100)
  ([ MetricPoint.mk "dex_memory_usage_bytes" MetricKind.counter (F64.fin (memoryUsage : ℚ)) cName,
     MetricPoint.mk "dex_memory_total_bytes" MetricKind.counter (F64.fin (memoryTotal : ℚ)) cName,
     MetricPoint.mk "dex_memory_utilization_percent" MetricKind.gauge memoryUtilization cName ],
   warned)

/-- The accumulation loop of `blockIoMetrics`: one pass over the entries,
adding `Value` to the read total when `Op` case-insensitively equals
`"read"` and to the write total when it equals `"write"`. -/
def blkioFold : List BlkioStatEntry → Nat × Nat → Nat × Nat
  | [], t => t
  | b :: bs, (r, w) =>
      let r2 := if eqFold b.op "read" then uadd64 r b.value else r
      let w2 := if eqFold b.op "write" then uadd64 w b.value else w
      blkioFold bs (r2, w2)

/-- Sum of the values of the entries whose op case-insensitively equals
`"read"` (the mathematical sum, before any `uint64` reduction). -/
def readSum (l : List BlkioStatEntry) : Nat :=
  ((l.filter fun b => eqFold b.op "read").map fun b => b.value).sum

/-- Sum of the values of the entries whose op case-insensitively equals
`"write"` (the mathematical sum, before any `uint64` reduction). -/
def writeSum (l : List BlkioStatEntry) : Nat :=
  ((l.filter fun b => eqFold b.op "write").map fun b => b.value).sum

/-- `blockIoMetrics`: read/write byte totals accumulated over the
`IoServiceBytesRecursive` entries. -/
def blockIoMetrics (s : StatsJSON) (cName : String) : List MetricPoint :=
  let t := blkioFold s.blkioEntries (0, 0)
  [ MetricPoint.mk "dex_block_io_read_bytes" MetricKind.counter (F64.fin (t.1 : ℚ)) cName,
    MetricPoint.mk "dex_block_io_write_bytes" MetricKind.counter (F64.fin (t.2 : ℚ)) cName ]

/-- `pidsMetrics`: passthrough of the current pid count. -/
def pidsMetrics (s : StatsJSON) (cName : String) : List MetricPoint :=
  [ MetricPoint.mk "dex_pids_current" MetricKind.counter (F64.fin (s.pidsStats.current : ℚ)) cName ]

/-- A listed container: id, names and state, as used by the collector. -/
structure Container where
  id : String
  names : List String
  state : String
  deriving DecidableEq, Repr

/-- Go `strings.TrimPrefix (s, sep)` for the one-character separator `/`:
drops a single leading slash when present. -/
def trimOneLeadingSlash (s : String) : String :=
  match s.data with
  | [] => s
  | c :: cs => if c = '/' then String.mk cs else s

/-- Container-name normalization: join all names with `;`, then strip one
leading `/`. -/
def containerName (c : Container) : String :=
  trimOneLeadingSlash (String.intercalate ";" c.names)

/-- Outcome of `ContainerStats` plus the JSON decode for one container.
`err` is a transport error from `ContainerStats` (the branch the source
answers with `log.Fatal`).  `ok decodeOk stats` is a response whose body
decode either succeeded (`decodeOk = true`) or failed after leaving `stats`
as the partially-filled value Go decoded into the zero-initialised struct;
a decode failure is only logged. -/
inductive FetchResult where
  | err
  | ok (decodeOk : Bool) (stats : StatsJSON)
  deriving DecidableEq, Repr

/-- The `dex_container_running` point: value 1 when the state equals
`"running"`, 0 otherwise. -/
def runningPoint (c : Container) : MetricPoint :=
  MetricPoint.mk "dex_container_running" MetricKind.gauge
    (F64.fin (if c.state = "running" then 1 else 0)) (containerName c)

/-- `processContainer` for one container: the list of points it sends, in
source order, paired with a flag that is `true` exactly when the source
reaches `log.Fatal` (a `ContainerStats` transport error on a running
container).  The running point is sent before the stats fetch; derived
points are produced only for running containers, and on a decode failure
the source still derives them from the partially-decoded snapshot. -/
def processContainer (c : Container) (fetch : FetchResult) : List MetricPoint × Bool :=
  let base := [runningPoint c]
  if c.state = "running" then
    match fetch with
    | FetchResult.err => (base, true)
    | FetchResult.ok _ s =>
        (base ++ blockIoMetrics s (containerName c)
              ++ (memoryMetrics s (containerName c)).1
              ++ networkMetrics s (containerName c)
              ++ CPUMetrics s (containerName c)
              ++ pidsMetrics s (containerName c), false)
  else (base, false)

/-- `Collect` for one cycle: on a listing error it logs and returns, so the
batch is empty; otherwise every container is processed and the batch is the
concatenation of the per-container traces (the goroutines interleave their
sends nondeterministically, but no claim here depends on the order).  When
any container reaches `log.Fatal` the process exits before the cycle
completes, modelled as `none`: no batch is ever returned. -/
def Collect (listResult : Except String (List Container))
    (fetch : Container → FetchResult) : Option (List MetricPoint) :=
  match listResult with
  | Except.error _ => some []
  | Except.ok containers =>
      let traces := containers.map fun c => processContainer c (fetch c)
      if traces.any (fun t => t.2) then none
      else some (List.flatten (traces.map fun t => t.1))

/-- A stats snapshot with every field zero and every collection empty: the
value Go decodes into when the body fails to decode at once. -/
def zeroStats : StatsJSON :=
  StatsJSON.mk (CPUStats.mk (CPUUsage.mk 0) 0) (CPUStats.mk (CPUUsage.mk 0) 0)
    (MemoryStats.mk 0 0 []) [] [] (PidsStats.mk 0)

/-- A running container named `a`. -/
def cRunA : Container := Container.mk "idA" ["/a"] "running"

/-- A running container named `b`. -/
def cRunB : Container := Container.mk "idB" ["/b"] "running"

/-- A stopped container named `c`. -/
def cStop : Container := Container.mk "idC" ["/c"] "exited"

/-- A fetch function that answers every container with a decoded zero
snapshot. -/
def fetchAllOk : Container → FetchResult := fun _ => FetchResult.ok true zeroStats

/-- A fetch function under which container `idB` hits a transport error and
every other container succeeds. -/
def fetchBErr : Container → FetchResult := fun c =>
  if c.id = "idB" then FetchResult.err else FetchResult.ok true zeroStats

/-- The batch of the one-container demo cycle used as a concrete witness. -/
def demoBatch : List MetricPoint := (processContainer cRunA (FetchResult.ok true zeroStats)).1

/-- Snapshot whose memory stats map holds both the `cache` and the `file`
key (usage 200, cache 100, file 50, limit 1000). -/
def sjBothKeys : StatsJSON :=
  StatsJSON.mk (CPUStats.mk (CPUUsage.mk 0) 0) (CPUStats.mk (CPUUsage.mk 0) 0)
    (MemoryStats.mk 200 1000 [("cache", 100), ("file", 50)]) [] [] (PidsStats.mk 0)

/-- Snapshot with zero CPU and system deltas and a zero memory limit: both
percentage denominators are zero. -/
def sjZeroDen : StatsJSON :=
  StatsJSON.mk (CPUStats.mk (CPUUsage.mk 5) 7) (CPUStats.mk (CPUUsage.mk 5) 7)
    (MemoryStats.mk 0 0 [("file", 0)]) [] [] (PidsStats.mk 0)

/-- Snapshot whose CPU counter went backwards: total 1000 after a previous
total of 1100, system 20100 after 20000. -/
def sjCpuWrap : StatsJSON :=
  StatsJSON.mk (CPUStats.mk (CPUUsage.mk 1000) 20100) (CPUStats.mk (CPUUsage.mk 1100) 20000)
    (MemoryStats.mk 0 0 []) [] [] (PidsStats.mk 0)

/-- The CPU example of the spec: total 1100 after 1000, system 20100 after
20000. -/
def sjCpuExample : StatsJSON :=
  StatsJSON.mk (CPUStats.mk (CPUUsage.mk 1100) 20100) (CPUStats.mk (CPUUsage.mk 1000) 20000)
    (MemoryStats.mk 0 0 []) [] [] (PidsStats.mk 0)

/-- Snapshot whose memory stats map holds neither `cache` nor `file` but
does hold the empty-string key (usage 10, limit 100). -/
def sjEmptyKey : StatsJSON :=
  StatsJSON.mk (CPUStats.mk (CPUUsage.mk 0) 0) (CPUStats.mk (CPUUsage.mk 0) 0)
    (MemoryStats.mk 10 100 [("", 5)]) [] [] (PidsStats.mk 0)

/-- Snapshot whose memory stats map holds neither `cache` nor `file` nor
the empty-string key (usage 10, limit 100). -/
def sjNoCacheKey : StatsJSON :=
  StatsJSON.mk (CPUStats.mk (CPUUsage.mk 0) 0) (CPUStats.mk (CPUUsage.mk 0) 0)
    (MemoryStats.mk 10 100 [("swap", 3)]) [] [] (PidsStats.mk 0)

/-- Two block-I/O read entries of `2 ^ 63` bytes each: their mathematical
sum is `2 ^ 64`, which overflows the `uint64` accumulator to 0. -/
def blkOverflowEntries : List BlkioStatEntry :=
  [BlkioStatEntry.mk "read" (2 ^ 63), BlkioStatEntry.mk "read" (2 ^ 63)]

/-- Snapshot carrying the overflowing block-I/O entries. -/
def sjBlkOverflow : StatsJSON :=
  StatsJSON.mk (CPUStats.mk (CPUUsage.mk 0) 0) (CPUStats.mk (CPUUsage.mk 0) 0)
    (MemoryStats.mk 0 0 []) [] blkOverflowEntries (PidsStats.mk 0)

/-- Snapshot carrying the block-I/O example of the spec:
`Read 100`, `write 50`, `Sync 9`. -/
def sjBlkExample : StatsJSON :=
  StatsJSON.mk (CPUStats.mk (CPUUsage.mk 0) 0) (CPUStats.mk (CPUUsage.mk 0) 0)
    (MemoryStats.mk 0 0 []) []
    [BlkioStatEntry.mk "Read" 100, BlkioStatEntry.mk "write" 50, BlkioStatEntry.mk "Sync" 9]
    (PidsStats.mk 0)

/-- Snapshot whose selected disk-cache stat (`file`, 150) exceeds the raw
usage (100); limit 1000. -/
def sjCacheExceeds : StatsJSON :=
  StatsJSON.mk (CPUStats.mk (CPUUsage.mk 0) 0) (CPUStats.mk (CPUUsage.mk 0) 0)
    (MemoryStats.mk 100 1000 [("file", 150)]) [] [] (PidsStats.mk 0)

/-- Predicate picking out the `dex_container_running` points of a batch. -/
def isRunningPt (p : MetricPoint) : Bool := p.name == "dex_container_running"

/-- Wrapped subtraction agrees with plain subtraction when no underflow
occurs and the minuend is in `uint64` range. -/
theorem usub64_eq_sub {a b : Nat} (hba : b ≤ a) (ha : a < U64) : usub64 a b = a - b := by
  have hb : b % U64 = b := Nat.mod_eq_of_lt (lt_of_le_of_lt hba ha)
  unfold usub64
  rw [hb]
  have h1 : U64 + a - b = U64 + (a - b) := by omega
  rw [h1, Nat.add_mod_left]
  exact Nat.mod_eq_of_lt (by omega)

/-- Wrapped subtraction on an underflow: the result wraps to
`2 ^ 64 - (b - a)`. -/
theorem usub64_wrap {a b : Nat} (hab : a < b) (hb : b < U64) : usub64 a b = U64 - (b - a) := by
  have hbm : b % U64 = b := Nat.mod_eq_of_lt hb
  unfold usub64
  rw [hbm, Nat.mod_eq_of_lt (by omega)]
  omega

/-- The block-I/O accumulation loop computes the read and write sums
modulo `2 ^ 64`, for any in-range starting accumulators. -/
theorem blkioFold_eq (l : List BlkioStatEntry) :
    ∀ r w : Nat, r < U64 → w < U64 →
      blkioFold l (r, w) = ((r + readSum l) % U64, (w + writeSum l) % U64) := by
  induction l with
  | nil =>
      intro r w hr hw
      simp [blkioFold, readSum, writeSum, Nat.mod_eq_of_lt hr, Nat.mod_eq_of_lt hw]
  | cons b bs ih =>
      intro r w hr hw
      have hU : 0 < U64 := by unfold U64; positivity
      have hsr : readSum (b :: bs)
          = (if eqFold b.op "read" = true then b.value else 0) + readSum bs := by
        by_cases h : eqFold b.op "read" <;> simp [readSum, List.filter_cons, h]
      have hsw : writeSum (b :: bs)
          = (if eqFold b.op "write" = true then b.value else 0) + writeSum bs := by
        by_cases h : eqFold b.op "write" <;> simp [writeSum, List.filter_cons, h]
      simp only [blkioFold]
      set r2 := if eqFold b.op "read" = true then uadd64 r b.value else r with hr2
      set w2 := if eqFold b.op "write" = true then uadd64 w b.value else w with hw2
      have hr2lt : r2 < U64 := by
        rw [hr2]
        by_cases h : eqFold b.op "read"
        · simpa [h, uadd64] using Nat.mod_lt (r + b.value) hU
        · simpa [h] using hr
      have hw2lt : w2 < U64 := by
        rw [hw2]
        by_cases h : eqFold b.op "write"
        · simpa [h, uadd64] using Nat.mod_lt (w + b.value) hU
        · simpa [h] using hw
      rw [ih r2 w2 hr2lt hw2lt, hsr, hsw]
      refine Prod.ext ?_ ?_
      · by_cases h : eqFold b.op "read"
        · simp [hr2, h, uadd64, Nat.mod_add_mod, Nat.add_assoc]
        · simp [hr2, h]
      · by_cases h : eqFold b.op "write"
        · simp [hw2, h, uadd64, Nat.mod_add_mod, Nat.add_assoc]
        · simp [hw2, h]

/-- The trace of one container always contains exactly one
`dex_container_running` point, whatever the fetch outcome. -/
theorem countP_running_trace (c : Container) (f : FetchResult) :
    (processContainer c f).1.countP isRunningPt = 1 := by
  by_cases h : c.state = "running"
  · cases f with
    | err => simp [processContainer, h, runningPoint, isRunningPt]
    | ok d s =>
        simp [processContainer, h, runningPoint, isRunningPt, blockIoMetrics, memoryMetrics,
          networkMetrics, CPUMetrics, pidsMetrics, List.countP_append, List.countP_cons]
  · simp [processContainer, h, runningPoint, isRunningPt]

/-- Concatenating the traces of a container list yields exactly one
`dex_container_running` point per container. -/
theorem countP_running_flatten (cs : List Container) (g : Container → FetchResult) :
    (List.flatten (cs.map fun c => (processContainer c (g c)).1)).countP isRunningPt
      = cs.length := by
  induction cs with
  | nil => simp
  | cons c cs ih => simp [List.countP_append, ih, countP_running_trace, Nat.add_comm]

/-- C1: the claim says a single failing `fetchStats` call leaves the other
containers' points intact and never aborts the cycle or the process.  The
source instead calls `log.Fatal` on a stats transport error: with two
running containers where the second answers the fetch with a transport
error, the process exits mid-cycle and no batch is ever returned, so the
claimed batch with N running points and N-1 sets of derived points does
not exist. -/
theorem collect_fetch_error_kills_cycle :
    Collect (Except.ok [cRunA, cRunB]) fetchBErr = none := by decide

/-- C2 counterexample: the claim says a decode failure omits the failing
container's derived points.  On a running container whose body fails to
decode, the source still emits all 10 derived points (computed from the
zero-valued snapshot): the trace has 11 points and contains a
`dex_memory_usage_bytes` point. -/
theorem decode_failure_points_not_omitted :
    (processContainer cRunA (FetchResult.ok false zeroStats)).1.length = 11
    ∧ (processContainer cRunA (FetchResult.ok false zeroStats)).1.countP
        (fun p => p.name == "dex_memory_usage_bytes") = 1 := by decide

/-- C2 amended: a decode failure on a running container is only logged and
the derived points are still emitted, computed from the partially-decoded
snapshot — the trace is identical to the one of a successful decode of the
same snapshot, the cycle is not aborted, and all 11 points appear. -/
theorem decode_failure_only_logged_points_still_emitted
    (c : Container) (s : StatsJSON) (h : c.state = "running") :
    processContainer c (FetchResult.ok false s) = processContainer c (FetchResult.ok true s)
    ∧ (processContainer c (FetchResult.ok false s)).2 = false
    ∧ (processContainer c (FetchResult.ok false s)).1.length = 11 := by
  refine ⟨rfl, ?_, ?_⟩
  · simp [processContainer, h]
  · simp [processContainer, h, blockIoMetrics, memoryMetrics, networkMetrics, CPUMetrics,
      pidsMetrics]

/-- Witness for the amended C2 at a concrete running container and the
zero snapshot. -/
theorem decode_failure_only_logged_points_still_emitted_demo :
    processContainer cRunA (FetchResult.ok false zeroStats)
        = processContainer cRunA (FetchResult.ok true zeroStats)
    ∧ (processContainer cRunA (FetchResult.ok false zeroStats)).2 = false
    ∧ (processContainer cRunA (FetchResult.ok false zeroStats)).1.length = 11 :=
  decode_failure_only_logged_points_still_emitted cRunA zeroStats rfl

/-- C3: every per-container trace contains exactly one
`dex_container_running` point whatever the fetch outcome, its value is 1
exactly when the state is `running` and 0 otherwise, a non-running
container contributes that point and nothing else (and never aborts), and
every completed cycle batch carries exactly one running point per listed
container. -/
theorem running_point_invariant (c : Container) (f : FetchResult)
    (cs : List Container) (g : Container → FetchResult) (batch : List MetricPoint)
    (hb : Collect (Except.ok cs) g = some batch) :
    (processContainer c f).1.countP isRunningPt = 1
    ∧ runningPoint c ∈ (processContainer c f).1
    ∧ (runningPoint c).value = F64.fin (if c.state = "running" then 1 else 0)
    ∧ (c.state ≠ "running" → processContainer c f = ([runningPoint c], false))
    ∧ batch.countP isRunningPt = cs.length := by
  refine ⟨countP_running_trace c f, ?_, rfl, ?_, ?_⟩
  · by_cases h : c.state = "running" <;> cases f <;> simp [processContainer, h]
  · intro h
    simp [processContainer, h]
  · unfold Collect at hb
    by_cases hf : (cs.map fun c => processContainer c (g c)).any (fun t => t.2)
    · simp [hf] at hb
    · simp only [hf, if_false, Bool.false_eq_true, Option.some.injEq] at hb
      rw [← hb, List.map_map]
      exact countP_running_flatten cs g

/-- Witness for C3 at a stopped container with a failing fetch, inside a
completed one-container demo cycle. -/
theorem running_point_invariant_demo :
    (processContainer cStop FetchResult.err).1.countP isRunningPt = 1
    ∧ runningPoint cStop ∈ (processContainer cStop FetchResult.err).1
    ∧ (runningPoint cStop).value = F64.fin (if cStop.state = "running" then 1 else 0)
    ∧ (cStop.state ≠ "running" → processContainer cStop FetchResult.err = ([runningPoint cStop], false))
    ∧ demoBatch.countP isRunningPt = [cRunA].length :=
  running_point_invariant cStop FetchResult.err [cRunA] fetchAllOk demoBatch rfl

/-- C4: when listing containers fails, `Collect` logs the error and
returns normally with an empty batch, whatever the fetch behaviour. -/
theorem collect_list_error_empty_batch (e : String) (fetch : Container → FetchResult) :
    Collect (Except.error e) fetch = some [] := rfl

/-- C5 counterexample: with both the `cache` (100) and the `file` (50) key
present and usage 200, the source selects `file` and reports 150, not the
100 the claimed `cache` preference would give. -/
theorem cache_preference_counterexample :
    kernelDiskCacheKeyName sjBothKeys.memoryStats.stats = "file"
    ∧ memoryUsageVal sjBothKeys.memoryStats = 150
    ∧ ¬ memoryUsageVal sjBothKeys.memoryStats = 100 := by decide

/-- C5 amended: the `file` key is the preferred one — whenever it is
present it is selected (the `file` check runs after and overwrites the
`cache` check), and memoryUsage is usage minus the `file` value in
`uint64` arithmetic, even when `cache` is also present. -/
theorem file_key_preferred (m : MemoryStats) (vc vf : Nat)
    (_hc : m.stats.lookup "cache" = some vc) (hf : m.stats.lookup "file" = some vf) :
    kernelDiskCacheKeyName m.stats = "file"
    ∧ memoryUsageVal m = usub64 m.usage vf := by
  constructor
  · simp [kernelDiskCacheKeyName, hf]
  · simp [memoryUsageVal, kernelDiskCacheKeyName, statLookup, hf]

/-- Witness for the amended C5 on the snapshot carrying both keys. -/
theorem file_key_preferred_demo :
    kernelDiskCacheKeyName sjBothKeys.memoryStats.stats = "file"
    ∧ memoryUsageVal sjBothKeys.memoryStats = usub64 200 50 :=
  file_key_preferred sjBothKeys.memoryStats 100 50 rfl rfl

/-- C6 counterexample: with both CPU deltas zero and a zero memory limit,
the utilization points are emitted with value NaN — the division by the
zero denominator is evaluated, the value is neither a 0 sentinel nor
omitted. -/
theorem zero_denominator_counterexample :
    (CPUMetrics sjZeroDen "c").head? = some (MetricPoint.mk "dex_cpu_utilization_percent"
        MetricKind.gauge F64.nan "c")
    ∧ (memoryMetrics sjZeroDen "c").1.getLast? = some (MetricPoint.mk
        "dex_memory_utilization_percent" MetricKind.gauge F64.nan "c")
    ∧ F64.nan ≠ F64.fin 0 := by decide

/-- C6 amended: a zero denominator is not guarded.  The float division is
evaluated with IEEE-754 semantics, yielding NaN when the numerator is also
zero and +Inf otherwise; the percentage point is emitted carrying that
non-finite value (it is not omitted and carries no sentinel), and no
runtime fault occurs since Go float64 division does not trap. -/
theorem zero_denominator_unguarded (s : StatsJSON) (cn : String)
    (h1 : systemDeltaVal s = 0) (h2 : s.memoryStats.limit = 0) :
    (CPUMetrics s cn).head? = some (MetricPoint.mk "dex_cpu_utilization_percent"
        MetricKind.gauge (if cpuDeltaVal s = 0 then F64.nan else F64.posInf) cn)
    ∧ (memoryMetrics s cn).1.getLast? = some (MetricPoint.mk "dex_memory_utilization_percent"
        MetricKind.gauge (if memoryUsageVal s.memoryStats = 0 then F64.nan else F64.posInf) cn) := by
  constructor
  · by_cases hd : cpuDeltaVal s = 0
    · simp [CPUMetrics, h1, hd, fdiv, fmul]
    · have hpos : (0 : ℚ) < (cpuDeltaVal s : ℚ) :=
        Nat.cast_pos.mpr (Nat.pos_of_ne_zero hd)
      simp [CPUMetrics, h1, hd, fdiv, fmul, hpos, ne_of_gt hpos]
  · by_cases hm : memoryUsageVal s.memoryStats = 0
    · simp [memoryMetrics, memoryUsageVal, h2, hm, fdiv, fmul] at hm ⊢
      simp [hm]
    · have hpos : (0 : ℚ) < (memoryUsageVal s.memoryStats : ℚ) :=
        Nat.cast_pos.mpr (Nat.pos_of_ne_zero hm)
      simp [memoryMetrics, h2, hm, fdiv, fmul, hpos, ne_of_gt hpos]

/-- Witness for the amended C6 on the zero-denominator snapshot. -/
theorem zero_denominator_unguarded_demo :
    (CPUMetrics sjZeroDen "c").head? = some (MetricPoint.mk "dex_cpu_utilization_percent"
        MetricKind.gauge (if cpuDeltaVal sjZeroDen = 0 then F64.nan else F64.posInf) "c")
    ∧ (memoryMetrics sjZeroDen "c").1.getLast? = some (MetricPoint.mk
        "dex_memory_utilization_percent" MetricKind.gauge
        (if memoryUsageVal sjZeroDen.memoryStats = 0 then F64.nan else F64.posInf) "c") :=
  zero_denominator_unguarded sjZeroDen "c" (by decide) rfl

/-- C7 counterexample: when the CPU counter goes backwards (total 1000
after a previous 1100) the `uint64` delta wraps to `2 ^ 64 - 100`, so the
emitted utilization is the huge wrapped ratio, not the value
`(1000 - 1100) / (20100 - 20000) * 100 = -100` of the claimed formula. -/
theorem cpu_formula_wraparound_counterexample :
    (CPUMetrics sjCpuWrap "c").head? = some (MetricPoint.mk "dex_cpu_utilization_percent"
        MetricKind.gauge (F64.fin (((2 ^ 64 - 100 : Nat) : ℚ) / ((100 : Nat) : ℚ) * 100)) "c")
    ∧ F64.fin (((2 ^ 64 - 100 : Nat) : ℚ) / ((100 : Nat) : ℚ) * 100)
        ≠ F64.fin (((1000 : ℚ) - 1100) / ((20100 : ℚ) - 20000) * 100) := by
  refine ⟨rfl, ?_⟩
  simp only [ne_eq, F64.fin.injEq]
  norm_num

/-- C7 amended: whenever neither `uint64` delta underflows (the previous
counters do not exceed the current ones, which are in range) and the
system delta is positive, the emitted utilization equals
`(total - prevTotal) / (system - prevSystem) * 100` and the seconds
counter equals `total / 1e9`; on a counter reset the deltas instead wrap
modulo `2 ^ 64`. -/
theorem cpu_metrics_formula (s : StatsJSON) (cn : String)
    (h1 : s.preCPUStats.cpuUsage.totalUsage ≤ s.cpuStats.cpuUsage.totalUsage)
    (h2 : s.cpuStats.cpuUsage.totalUsage < U64)
    (h3 : s.preCPUStats.systemUsage < s.cpuStats.systemUsage)
    (h4 : s.cpuStats.systemUsage < U64) :
    CPUMetrics s cn = [
      MetricPoint.mk "dex_cpu_utilization_percent" MetricKind.gauge
        (F64.fin (((s.cpuStats.cpuUsage.totalUsage - s.preCPUStats.cpuUsage.totalUsage : Nat) : ℚ)
          / ((s.cpuStats.systemUsage - s.preCPUStats.systemUsage : Nat) : ℚ) * 100)) cn,
      MetricPoint.mk "dex_cpu_utilization_seconds_total" MetricKind.counter
        (F64.fin ((s.cpuStats.cpuUsage.totalUsage : ℚ) / (10 ^ 9 : ℚ))) cn ] := by
  have hden : ((s.cpuStats.systemUsage - s.preCPUStats.systemUsage : Nat) : ℚ) ≠ 0 :=
    Nat.cast_ne_zero.mpr (by omega)
  unfold CPUMetrics cpuDeltaVal systemDeltaVal
  rw [usub64_eq_sub h1 h2, usub64_eq_sub (le_of_lt h3) h4]
  simp [fdiv, fmul, hden]

/-- Witness for the amended C7 at the CPU example of the spec: the
utilization is exactly 100. -/
theorem cpu_metrics_formula_demo :
    CPUMetrics sjCpuExample "c" = [
      MetricPoint.mk "dex_cpu_utilization_percent" MetricKind.gauge (F64.fin 100) "c",
      MetricPoint.mk "dex_cpu_utilization_seconds_total" MetricKind.counter
        (F64.fin ((1100 : ℚ) / (10 ^ 9 : ℚ))) "c" ] := by
  have h := cpu_metrics_formula sjCpuExample "c" (by decide) (by decide) (by decide) (by decide)
  rw [h]
  norm_num [sjCpuExample]

/-- C8 counterexample: a stats map with neither `cache` nor `file` but an
empty-string key makes the source subtract that key (the selected key name
defaults to the empty string): usage 10 with an empty-string entry 5 is
reported as 5, not as the unadjusted 10 the claim states. -/
theorem memory_no_key_counterexample :
    (sjEmptyKey.memoryStats.stats.lookup "cache").isNone = true
    ∧ (sjEmptyKey.memoryStats.stats.lookup "file").isNone = true
    ∧ memoryUsageVal sjEmptyKey.memoryStats = 5
    ∧ ¬ memoryUsageVal sjEmptyKey.memoryStats = sjEmptyKey.memoryStats.usage := by decide

/-- C8 amended: for a snapshot whose stats map holds neither `cache` nor
`file` nor the empty-string key, the usage is reported unadjusted, the
missing-key warning is recorded, and the three memory points are still
emitted (nothing is skipped). -/
theorem memory_no_key_usage_unadjusted (s : StatsJSON) (cn : String)
    (h1 : s.memoryStats.stats.lookup "cache" = none)
    (h2 : s.memoryStats.stats.lookup "file" = none)
    (h3 : s.memoryStats.stats.lookup "" = none)
    (h4 : s.memoryStats.usage < U64) :
    memoryUsageVal s.memoryStats = s.memoryStats.usage
    ∧ (memoryMetrics s cn).2 = true
    ∧ (memoryMetrics s cn).1 = [
        MetricPoint.mk "dex_memory_usage_bytes" MetricKind.counter
          (F64.fin (s.memoryStats.usage : ℚ)) cn,
        MetricPoint.mk "dex_memory_total_bytes" MetricKind.counter
          (F64.fin (s.memoryStats.limit : ℚ)) cn,
        MetricPoint.mk "dex_memory_utilization_percent" MetricKind.gauge
          (fmul (fdiv (F64.fin (s.memoryStats.usage : ℚ))
            (F64.fin (s.memoryStats.limit : ℚ))) (F64.fin 100)) cn ] := by
  have hm : memoryUsageVal s.memoryStats = s.memoryStats.usage := by
    unfold memoryUsageVal
    simp [kernelDiskCacheKeyName, statLookup, h1, h2, h3]
    exact usub64_eq_sub (Nat.zero_le _) h4
  refine ⟨hm, ?_, ?_⟩ <;> simp [memoryMetrics, hm, h1, h2]

/-- Witness for the amended C8 on a snapshot with an unrelated stats key. -/
theorem memory_no_key_usage_unadjusted_demo :
    memoryUsageVal sjNoCacheKey.memoryStats = sjNoCacheKey.memoryStats.usage
    ∧ (memoryMetrics sjNoCacheKey "c").2 = true
    ∧ (memoryMetrics sjNoCacheKey "c").1 = [
        MetricPoint.mk "dex_memory_usage_bytes" MetricKind.counter
          (F64.fin (sjNoCacheKey.memoryStats.usage : ℚ)) "c",
        MetricPoint.mk "dex_memory_total_bytes" MetricKind.counter
          (F64.fin (sjNoCacheKey.memoryStats.limit : ℚ)) "c",
        MetricPoint.mk "dex_memory_utilization_percent" MetricKind.gauge
          (fmul (fdiv (F64.fin (sjNoCacheKey.memoryStats.usage : ℚ))
            (F64.fin (sjNoCacheKey.memoryStats.limit : ℚ))) (F64.fin 100)) "c" ] :=
  memory_no_key_usage_unadjusted sjNoCacheKey "c" rfl rfl rfl (by decide)

/-- C9 counterexample: two read entries of `2 ^ 63` bytes each make the
`uint64` read accumulator wrap to 0, while the claimed mathematical sum is
`2 ^ 64`. -/
theorem blockio_sum_overflow_counterexample :
    (blkioFold blkOverflowEntries (0, 0)).1 = 0
    ∧ readSum blkOverflowEntries = 2 ^ 64
    ∧ (0 : Nat) ≠ 2 ^ 64 := by decide

/-- C9 amended: the read and write totals are the sums of the values of
the entries whose op case-insensitively equals `read` respectively
`write`, taken modulo `2 ^ 64` (other ops ignored); on the example entries
`Read 100`, `write 50`, `Sync 9` the totals are 100 and 50. -/
theorem blockio_totals_mod_u64 :
    (∀ (s : StatsJSON) (cn : String),
      blockIoMetrics s cn = [
        MetricPoint.mk "dex_block_io_read_bytes" MetricKind.counter
          (F64.fin ((readSum s.blkioEntries % U64 : Nat) : ℚ)) cn,
        MetricPoint.mk "dex_block_io_write_bytes" MetricKind.counter
          (F64.fin ((writeSum s.blkioEntries % U64 : Nat) : ℚ)) cn ])
    ∧ blkioFold sjBlkExample.blkioEntries (0, 0) = (100, 50) := by
  constructor
  · intro s cn
    have hU : 0 < U64 := by unfold U64; positivity
    unfold blockIoMetrics
    rw [blkioFold_eq _ 0 0 hU hU]
    simp
  · decide

/-- C10: when the selected disk-cache stat exceeds the raw usage, the
reported memory usage is the `uint64`-wrapped difference
`2 ^ 64 - (v - usage)`, and both the usage point and the utilization point
are emitted from that wrapped value. -/
theorem memory_wraparound (s : StatsJSON) (cn : String) (v : Nat)
    (hsel : statLookup s.memoryStats.stats (kernelDiskCacheKeyName s.memoryStats.stats) = v)
    (hgt : s.memoryStats.usage < v) (hv : v < U64) :
    memoryUsageVal s.memoryStats = U64 - (v - s.memoryStats.usage)
    ∧ MetricPoint.mk "dex_memory_usage_bytes" MetricKind.counter
        (F64.fin ((U64 - (v - s.memoryStats.usage) : Nat) : ℚ)) cn ∈ (memoryMetrics s cn).1
    ∧ MetricPoint.mk "dex_memory_utilization_percent" MetricKind.gauge
        (fmul (fdiv (F64.fin ((U64 - (v - s.memoryStats.usage) : Nat) : ℚ))
          (F64.fin (s.memoryStats.limit : ℚ))) (F64.fin 100)) cn ∈ (memoryMetrics s cn).1 := by
  have hm : memoryUsageVal s.memoryStats = U64 - (v - s.memoryStats.usage) := by
    unfold memoryUsageVal
    rw [hsel]
    exact usub64_wrap hgt hv
  refine ⟨hm, ?_, ?_⟩ <;> simp [memoryMetrics, hm]

/-- Witness for C10 on the snapshot whose `file` stat (150) exceeds the
usage (100). -/
theorem memory_wraparound_demo :
    memoryUsageVal sjCacheExceeds.memoryStats = U64 - (150 - sjCacheExceeds.memoryStats.usage)
    ∧ MetricPoint.mk "dex_memory_usage_bytes" MetricKind.counter
        (F64.fin ((U64 - (150 - sjCacheExceeds.memoryStats.usage) : Nat) : ℚ)) "c"
        ∈ (memoryMetrics sjCacheExceeds "c").1
    ∧ MetricPoint.mk "dex_memory_utilization_percent" MetricKind.gauge
        (fmul (fdiv (F64.fin ((U64 - (150 - sjCacheExceeds.memoryStats.usage) : Nat) : ℚ))
          (F64.fin (sjCacheExceeds.memoryStats.limit : ℚ))) (F64.fin 100)) "c"
        ∈ (memoryMetrics sjCacheExceeds "c").1 :=
  memory_wraparound sjCacheExceeds "c" 150 (by decide) (by decide) (by decide)

end DexCollector
